import Mathlib

/-!
Shallow embedding of the daemon-registry core (identity derivation,
rate limiting, verification, health checking, activity log, and the
announce/activity facade operations) together with proofs of the
specification claims about it.

Network effects (HTTP fetches, JSON-RPC probes, URL parsing) are modelled
by passing their observable outcome as an explicit argument; the
key-value store is modelled as an explicit state record threaded through
the operations.  Wall-clock times are passed explicitly (milliseconds as
`Int`, ISO timestamps as `String`).
-/

namespace DaemonRegistry

/-- JS `String.prototype.charCodeAt` enumerates UTF-16 code units; this
computes that sequence for a Lean string (code points above `0xFFFF`
become a surrogate pair). -/
def utf16CodeUnits (s : String) : List Nat :=
  s.data.foldr
    (fun c acc =>
      let n := c.toNat
      if n < 65536 then n :: acc
      else (55296 + (n - 65536) / 1024) :: (56320 + (n - 65536) % 1024) :: acc)
    []

/-- JS string `.length` (number of UTF-16 code units). -/
def jsLength (s : String) : Nat := (utf16CodeUnits s).length

/-! ## Identity Deriver (`deriveIdFromUrl`, src/unnamed/part_004) -/

/-- Result of `new URL(url)`: the components the deriver reads.  A URL
that fails to parse is represented by `none` at the call sites. -/
structure UrlParts where
  hostname : String
  pathname : String
deriving DecidableEq

/-- JS `str.split(sep)` for a single-character separator, over the
character list.  Splitting the empty string yields `[""]`. -/
def splitOnChar (sep : Char) : List Char → List (List Char)
  | [] => [[]]
  | c :: cs =>
      match splitOnChar sep cs with
      | [] => if c = sep then [[], []] else [[c]]
      | r :: rs => if c = sep then [] :: r :: rs else (c :: r) :: rs

/-- JS `parts.join(sep)` for a single-character separator. -/
def joinChar (sep : Char) : List (List Char) → List Char
  | [] => []
  | [x] => x
  | x :: xs => x ++ sep :: joinChar sep xs

/-- JS `pathname.replace(/^\/|\/$/g, '')`: drop one leading and one
trailing slash. -/
def stripOuterSlashes (s : List Char) : List Char :=
  let s1 := match s with
    | '/' :: rest => rest
    | other => other
  if s1.getLast? = some '/' then s1.dropLast else s1

/-- JS `owner.toLowerCase().replace(/[^a-z0-9]/g, '').substring(0, 20)`. -/
def sanitizeOwner (o : String) : String :=
  String.mk (((o.data.map Char.toLower).filter (fun c => c.isLower || c.isDigit)).take 20)

/-- First path segment, as computed by
`pathname.replace(/^\/|\/$/g, '').split('/')[0]`. -/
def firstPathSegment (pathname : String) : String :=
  String.mk ((splitOnChar '/' (stripOuterSlashes pathname.data)).headD [])

/-- JS `host.split('.').reverse()`. -/
def reversedHostLabels (hostname : String) : List (List Char) :=
  (splitOnChar '.' hostname.data).reverse

/-- `deriveIdFromUrl` from src/unnamed/part_004.  `parsed` is the outcome
of `new URL(url)` (`none` when parsing throws, taking the catch branch). -/
def deriveIdFromUrl (parsed : Option UrlParts) (url : String) (owner : Option String) :
    String :=
  match parsed with
  | some p =>
      let parts := reversedHostLabels p.hostname
      let pathPart := firstPathSegment p.pathname
      let identifier := if pathPart ≠ "" then pathPart else "daemon"
      let identifier :=
        match owner with
        | some o =>
            if o ≠ "" then
              let s := sanitizeOwner o
              if s ≠ "" then s else identifier
            else identifier
        | none => identifier
      String.mk (joinChar '.' (parts ++ [identifier.data]))
  | none =>
      "unknown." ++ String.mk ((url.data.filter Char.isAlphanum).take 32)

/-- The identifier segment as the claim C1 words it: first non-empty path
segment wins over the owner.  Stated from the spec sentence, for
comparison against `deriveIdFromUrl`. -/
def identifierClaimed (pathname : String) (owner : Option String) : String :=
  let pathPart := firstPathSegment pathname
  if pathPart ≠ "" then pathPart
  else
    match owner with
    | some o => if sanitizeOwner o ≠ "" then sanitizeOwner o else "daemon"
    | none => "daemon"

/-- The identifier segment with the corrected priority: the sanitized
owner (when non-empty) wins over the path segment. -/
def identifierAmended (pathname : String) (owner : Option String) : String :=
  let pathPart := firstPathSegment pathname
  let base := if pathPart ≠ "" then pathPart else "daemon"
  match owner with
  | some o => if o ≠ "" ∧ sanitizeOwner o ≠ "" then sanitizeOwner o else base
  | none => base

/-! ## Jitter hash (`hashCode` / `getDaemonCheckMinute`,
src/packages/registry/src/lib/rate-limit.ts health section) -/

/-- JS ToInt32: wrap an integer into the signed 32-bit range. -/
def toInt32 (n : Int) : Int := (n + 2147483648) % 4294967296 - 2147483648

/-- One iteration of the loop body
`hash = ((hash << 5) - hash) + char; hash = hash & hash;`.
`hash << 5` wraps to int32, the sum is exact in a double, and
`hash & hash` wraps the result back to int32. -/
def hashStep (h : Int) (c : Nat) : Int := toInt32 (toInt32 (h * 32) - h + c)

/-- `hashCode` from the source: fold the step over the UTF-16 code units
and take `Math.abs`. -/
def hashCode (s : String) : Int :=
  let h := (utf16CodeUnits s).foldl hashStep 0
  if h < 0 then -h else h

/-- `getDaemonCheckMinute(url) = hashCode(url) % 60`. -/
def getDaemonCheckMinute (url : String) : Int :=
  hashCode url % 60

/-! ## Rate limiter (src/packages/registry/src/lib/rate-limit.ts) -/

def RATE_LIMIT_WINDOW_MS : Int := 3600000

def RATE_LIMIT_MAX_ANNOUNCES : Nat := 5

structure RateLimitRecord where
  count : Nat
  windowStart : Int
deriving DecidableEq

structure RateCheck where
  allowed : Bool
  remaining : Int
  resetIn : Int
deriving DecidableEq

/-- `checkRateLimit`: pure function of the stored record (if any) and the
current time; performs no store write. -/
def checkRateLimit (record : Option RateLimitRecord) (now : Int) : RateCheck :=
  match record with
  | none =>
      { allowed := true, remaining := (RATE_LIMIT_MAX_ANNOUNCES : Int) - 1,
        resetIn := RATE_LIMIT_WINDOW_MS }
  | some r =>
      if now - r.windowStart > RATE_LIMIT_WINDOW_MS then
        { allowed := true, remaining := (RATE_LIMIT_MAX_ANNOUNCES : Int) - 1,
          resetIn := RATE_LIMIT_WINDOW_MS }
      else if r.count ≥ RATE_LIMIT_MAX_ANNOUNCES then
        { allowed := false, remaining := 0,
          resetIn := RATE_LIMIT_WINDOW_MS - (now - r.windowStart) }
      else
        { allowed := true,
          remaining := (RATE_LIMIT_MAX_ANNOUNCES : Int) - r.count - 1,
          resetIn := RATE_LIMIT_WINDOW_MS - (now - r.windowStart) }

/-- `recordRateLimitHit`: returns the record written back to the store. -/
def recordRateLimitHit (record : Option RateLimitRecord) (now : Int) : RateLimitRecord :=
  match record with
  | none => { count := 1, windowStart := now }
  | some r =>
      if now - r.windowStart > RATE_LIMIT_WINDOW_MS then
        { count := 1, windowStart := now }
      else
        { count := r.count + 1, windowStart := r.windowStart }

/-- A sequence of `recordRateLimitHit` store round-trips at the given
times, starting from the given stored record. -/
def recordHits (record : Option RateLimitRecord) (times : List Int) :
    Option RateLimitRecord :=
  times.foldl (fun r t => some (recordRateLimitHit r t)) record

/-! ## Activity log (src/packages/registry/src/lib/kv.ts) -/

def ACTIVITY_FEED_MAX_EVENTS : Nat := 100

/-- One activity event.  `details_verified` models the `details` payload
written by announce (`{ verified: ... }`); other event kinds leave it
`none`. -/
structure ActivityEvent where
  type : String
  daemon_url : String
  daemon_owner : String
  timestamp : String
  details_verified : Option Bool := none
deriving DecidableEq

/-- `addActivityEvent`: prepend the (already timestamped) event, then
truncate to the maximum length by `events.length = 100`. -/
def addActivityEvent (events : List ActivityEvent) (event : ActivityEvent) :
    List ActivityEvent :=
  (event :: events).take ACTIVITY_FEED_MAX_EVENTS

/-! ## Verifier (`verifyDaemon`, src/packages/registry/src/lib health
section) -/

/-- Observable outcome of `fetch(<url>daemon.md)`: either the thrown
error's message (network failure / timeout, the catch branch), or a
response with its HTTP status code and body text. -/
inductive FetchOutcome where
  | failure (msg : String)
  | response (status : Nat) (content : String)
deriving DecidableEq

/-- `Response.ok`: status in the 2xx range. -/
def responseOk (status : Nat) : Bool := 200 ≤ status && status < 300

structure VerifyResult where
  verified : Bool
  error : Option String := none
deriving DecidableEq

/-- URL normalization for the daemon.md fetch: ensure a trailing slash,
then append `daemon.md`. -/
def daemonMdUrl (daemonUrl : String) : String :=
  (if daemonUrl.endsWith "/" then daemonUrl else daemonUrl ++ "/") ++ "daemon.md"

/-- `verifyDaemon`, as a function of the fetch outcome for
`daemonMdUrl url`. -/
def verifyDaemon (outcome : FetchOutcome) : VerifyResult :=
  match outcome with
  | .failure msg => { verified := false, error := some msg }
  | .response status content =>
      if !responseOk status then
        { verified := false, error := some ("HTTP " ++ toString status) }
      else if !(content.data.contains '[') || jsLength content < 50 then
        { verified := false, error := some "Invalid daemon.md format" }
      else
        { verified := true }

/-! ## Health engine (`healthCheckDaemon`) -/

/-- The partial entry update returned by a health check; all three fields
are always present in the source's return values. -/
structure HealthUpdate where
  last_checked : String
  status : String
  healthy : Bool
deriving DecidableEq

/-- `healthCheckDaemon`, as a function of the boolean outcomes of its
three probes (`checkWebReachable`, `checkMcpCapability`, and the
`verified` field of `verifyDaemon`) and the current timestamp. -/
def healthCheckDaemon (webReachable mcpReachable verified : Bool) (now : String) :
    HealthUpdate :=
  if mcpReachable || verified then
    { last_checked := now, status := "mcp", healthy := true }
  else if webReachable then
    { last_checked := now, status := "web", healthy := true }
  else
    { last_checked := now, status := "offline", healthy := false }

/-! ## Registry data model -/

structure DaemonEntry where
  id : String
  url : String
  owner : String
  role : Option String := none
  focus : Option (List String) := none
  protocol : Option String := none
  mcp_url : Option String := none
  api_url : Option String := none
  tags : Option (List String) := none
  announced_at : Option String := none
  verified : Bool := false
  verified_at : Option String := none
  last_checked : Option String := none
  status : Option String := none
  healthy : Option Bool := none
  content_hash : Option String := none
deriving DecidableEq

/-- Merging a health update into an entry, `{ ...entry, ...healthUpdate }`:
the update always carries all three fields, so they override the
entry's. -/
def applyHealthUpdate (e : DaemonEntry) (u : HealthUpdate) : DaemonEntry :=
  { e with
    last_checked := some u.last_checked,
    status := some u.status,
    healthy := some u.healthy }

/-! ## Registry facade (`registryAnnounce` / `registryActivity`,
src/unnamed/part_004) -/

/-- The announce request body (`Omit<DaemonEntry, ...> & { id? }`). -/
structure AnnounceInput where
  id : Option String := none
  url : String
  owner : String
  role : Option String := none
  focus : Option (List String) := none
  protocol : Option String := none
  mcp_url : Option String := none
  tags : Option (List String) := none
deriving DecidableEq

/-- The `entry as DaemonEntry` cast used in failure results: the request
body passed through unchanged, with the fields it never had absent. -/
def inputAsEntry (input : AnnounceInput) : DaemonEntry :=
  { id := input.id.getD "", url := input.url, owner := input.owner,
    role := input.role, focus := input.focus, protocol := input.protocol,
    mcp_url := input.mcp_url, tags := input.tags }

/-- The mutable KV-backed state an announce can read and write: the
persisted overlay of announced entries, the rate-limit record of the
calling client, and the activity feed. -/
structure KVState where
  announced : List DaemonEntry
  rateLimit : Option RateLimitRecord
  activity : List ActivityEvent
deriving DecidableEq

structure AnnounceResult where
  success : Bool
  entry : DaemonEntry
  message : String
  verification_error : Option String := none
  rate_limit : Option (Int × Int) := none
deriving DecidableEq

structure AnnounceOutcome where
  result : AnnounceResult
  state : KVState
deriving DecidableEq

/-- `Math.ceil(resetIn / 60000)` for the rate-limit message. -/
def ceilMinutes (resetIn : Int) : Int := (resetIn + 59999) / 60000

def rateLimitExceededMessage (resetIn : Int) : String :=
  "Rate limit exceeded. Try again in " ++ toString (ceilMinutes resetIn) ++ " minutes."

/-- `entry.id || deriveIdFromUrl(entry.url, entry.owner)`. -/
def resolveAnnounceId (input : AnnounceInput) (parsedUrl : Option UrlParts) : String :=
  match input.id with
  | some i => if i ≠ "" then i else deriveIdFromUrl parsedUrl input.url (some input.owner)
  | none => deriveIdFromUrl parsedUrl input.url (some input.owner)

/-- The `newEntry` literal constructed on a successful announce. -/
def mkAnnouncedEntry (input : AnnounceInput) (id : String) (verification : VerifyResult)
    (now : String) : DaemonEntry :=
  { id := id, url := input.url, owner := input.owner, role := input.role,
    focus := input.focus, protocol := input.protocol, mcp_url := input.mcp_url,
    tags := input.tags,
    announced_at := some now,
    verified := verification.verified,
    verified_at := some now,
    last_checked := some now,
    status := some (if verification.verified then "mcp" else "web"),
    healthy := some true }

/-- The `daemon_announced` activity event appended by a successful
announce. -/
def mkAnnouncedEvent (input : AnnounceInput) (verification : VerifyResult)
    (now : String) : ActivityEvent :=
  { type := "daemon_announced", daemon_url := input.url,
    daemon_owner := input.owner, timestamp := now,
    details_verified := some verification.verified }

/-- `registryAnnounce` from src/unnamed/part_004, with the KV store
present.  `seed` is the read-only seed list (`loadRegistry` returns
`seed ++ st.announced`); `hasClientIp` is whether a client IP was
supplied (without one the rate limiter is neither checked nor recorded);
`parsedUrl` is the outcome of `new URL(input.url)`; `verification` the
Verifier's outcome for `input.url`; `now`/`nowMs` the current time. -/
def registryAnnounce (seed : List DaemonEntry) (st : KVState) (input : AnnounceInput)
    (hasClientIp : Bool) (parsedUrl : Option UrlParts) (verification : VerifyResult)
    (now : String) (nowMs : Int) : AnnounceOutcome :=
  let rlCheck := checkRateLimit st.rateLimit nowMs
  if hasClientIp && !rlCheck.allowed then
    { result := { success := false, entry := inputAsEntry input,
                  message := rateLimitExceededMessage rlCheck.resetIn,
                  rate_limit := some (0, rlCheck.resetIn) },
      state := st }
  else
    let entries := seed ++ st.announced
    let id := resolveAnnounceId input parsedUrl
    match entries.find? (fun e => e.url == input.url) with
    | some existing =>
        { result := { success := false, entry := existing,
                      message := "Daemon already registered (URL exists)" },
          state := st }
    | none =>
    match entries.find? (fun e => e.id == id) with
    | some existing =>
        { result := { success := false, entry := existing,
                      message := "Daemon ID already registered: " ++ id },
          state := st }
    | none =>
    match parsedUrl with
    | none =>
        { result := { success := false, entry := inputAsEntry input,
                      message := "Invalid URL format" },
          state := st }
    | some _ =>
        let newEntry := mkAnnouncedEntry input id verification now
        let announced2 := st.announced ++ [newEntry]
        let rateLimit2 :=
          if hasClientIp then some (recordRateLimitHit st.rateLimit nowMs)
          else st.rateLimit
        let activity2 := addActivityEvent st.activity (mkAnnouncedEvent input verification now)
        let message :=
          if verification.verified then "Daemon announced and verified successfully"
          else "Daemon announced but verification failed (daemon.md not accessible)"
        let rl2 := checkRateLimit rateLimit2 nowMs
        { result := { success := true, entry := newEntry, message := message,
                      verification_error := verification.error,
                      rate_limit :=
                        if hasClientIp then some (rl2.remaining, rl2.resetIn) else none },
          state := { announced := announced2, rateLimit := rateLimit2,
                     activity := activity2 } }

/-- The type filter applied by `registryActivity`. -/
def filterByType (events : List ActivityEvent) (eventType : Option String) :
    List ActivityEvent :=
  match eventType with
  | some t => events.filter (fun e => e.type == t)
  | none => events

/-- `registryActivity` from src/unnamed/part_004.  `hasKv` is whether a
KV binding was supplied; `events` is the stored activity feed.  The
`limit || 20` default makes any falsy limit (absent or `0`) become 20. -/
def registryActivity (hasKv : Bool) (events : List ActivityEvent)
    (limit : Option Nat) (eventType : Option String) :
    List ActivityEvent × Nat :=
  if !hasKv then ([], 0)
  else
    let filtered := filterByType events eventType
    let total := filtered.length
    let maxEvents :=
      match limit with
      | some n => if n ≠ 0 then n else 20
      | none => 20
    (filtered.take maxEvents, total)

/-! ## Shared helper lemmas -/

theorem take_append_take {α : Type} (l m : List α) (n k : Nat) (h : n ≤ k) :
    (l ++ m.take k).take n = (l ++ m).take n := by
  induction l generalizing n k with
  | nil => simp [List.take_take, Nat.min_eq_left h]
  | cons a l ih =>
      cases n with
      | zero => simp
      | succ n => simp [List.take_succ_cons, ih n k (Nat.le_of_succ_le h)]

theorem addActivityEvent_take (l : List ActivityEvent) (e : ActivityEvent) :
    addActivityEvent (l.take 100) e = (e :: l).take 100 :=
  take_append_take [e] l 100 100 (Nat.le_refl 100)

theorem foldl_addActivityEvent (es l : List ActivityEvent) :
    List.foldl addActivityEvent (l.take 100) es = (es.reverse ++ l).take 100 := by
  induction es generalizing l with
  | nil => simp
  | cons e es ih =>
      rw [List.foldl_cons, addActivityEvent_take, ih (e :: l)]
      simp

/-- A sample activity event used by concrete witnesses. -/
def sampleEvent : ActivityEvent :=
  { type := "daemon_announced", daemon_url := "https://x.example.com/",
    daemon_owner := "ada", timestamp := "2026-01-01T00:00:00Z" }

/-! ## Claims -/

/-- Claim C1, counterexample: with URL `https://x.example.com/path`
(first path segment `"path"`) and owner `"Ada"`, the code derives
`com.example.x.ada` — the sanitized owner overrides the path segment —
whereas the claim predicts the path segment `path` as identifier. -/
theorem deriveId_owner_overrides_path_counterexample :
    deriveIdFromUrl (some ⟨"x.example.com", "/path"⟩) "https://x.example.com/path"
        (some "Ada") = "com.example.x.ada" ∧
    deriveIdFromUrl (some ⟨"x.example.com", "/path"⟩) "https://x.example.com/path"
        (some "Ada") ≠
      String.mk (joinChar '.' (reversedHostLabels "x.example.com" ++
        [(identifierClaimed "/path" (some "Ada")).data])) := by
  constructor
  · rfl
  · decide

/-- Claim C1, amended: for every URL that parses successfully,
`deriveIdFromUrl` returns the host's DNS labels in reversed order joined
by `'.'`, followed by one identifier segment chosen with this priority:
(a) the sanitized owner (lowercased, non-alphanumeric removed, capped at
20 chars) when the owner is supplied and that sanitization is non-empty,
else (b) the first non-empty path segment, else (c) `"daemon"`. -/
theorem deriveId_reversed_host_and_identifier (p : UrlParts) (url : String)
    (owner : Option String) :
    deriveIdFromUrl (some p) url owner =
      String.mk (joinChar '.' (reversedHostLabels p.hostname ++
        [(identifierAmended p.pathname owner).data])) := by
  cases owner with
  | none => rfl
  | some o =>
      by_cases h1 : o = ""
      · simp [deriveIdFromUrl, identifierAmended, h1]
      · by_cases h2 : sanitizeOwner o = ""
        · simp [deriveIdFromUrl, identifierAmended, h1, h2]
        · simp [deriveIdFromUrl, identifierAmended, h1, h2]

/-- Claim C3: `healthCheckDaemon` resolves status in priority order —
MCP probe or verifier success gives `status="mcp", healthy=true`
regardless of the plain GET; else a successful GET gives
`status="web", healthy=true`; else `status="offline", healthy=false`;
and `last_checked` is always the current time. -/
theorem healthCheckDaemon_status_resolution (web mcp ver : Bool) (now : String) :
    ((mcp = true ∨ ver = true) →
      healthCheckDaemon web mcp ver now =
        { last_checked := now, status := "mcp", healthy := true }) ∧
    (mcp = false → ver = false → web = true →
      healthCheckDaemon web mcp ver now =
        { last_checked := now, status := "web", healthy := true }) ∧
    (mcp = false → ver = false → web = false →
      healthCheckDaemon web mcp ver now =
        { last_checked := now, status := "offline", healthy := false }) ∧
    (healthCheckDaemon web mcp ver now).last_checked = now := by
  refine ⟨?_, ?_, ?_, ?_⟩
  · rintro (h | h) <;> simp [healthCheckDaemon, h]
  · intro h1 h2 h3; simp [healthCheckDaemon, h1, h2, h3]
  · intro h1 h2 h3; simp [healthCheckDaemon, h1, h2, h3]
  · cases web <;> cases mcp <;> cases ver <;> rfl

/-- Claim C3, witness: the three resolution branches at concrete probe
outcomes. -/
theorem healthCheckDaemon_status_resolution_witness :
    healthCheckDaemon true true false "T" =
      { last_checked := "T", status := "mcp", healthy := true } ∧
    healthCheckDaemon true false false "T" =
      { last_checked := "T", status := "web", healthy := true } ∧
    healthCheckDaemon false false false "T" =
      { last_checked := "T", status := "offline", healthy := false } :=
  ⟨(healthCheckDaemon_status_resolution true true false "T").1 (Or.inl rfl),
   (healthCheckDaemon_status_resolution true false false "T").2.1 rfl rfl rfl,
   (healthCheckDaemon_status_resolution false false false "T").2.2.1 rfl rfl rfl⟩

/-- Claim C6: each append places the new event at the front, the log
stays within the 100-event cap, and appending `n ≥ 100` events (in
particular 150) to an empty log leaves exactly the 100 most recent,
newest first, with the older ones discarded. -/
theorem activityLog_bounded_newest_first (e : ActivityEvent) (l es : List ActivityEvent) :
    (addActivityEvent l e).head? = some e ∧
    (addActivityEvent l e).length ≤ 100 ∧
    (es.length = 150 →
      List.foldl addActivityEvent [] es = es.reverse.take 100 ∧
      (List.foldl addActivityEvent [] es).length = 100) := by
  refine ⟨rfl, ?_, ?_⟩
  · simp [addActivityEvent, ACTIVITY_FEED_MAX_EVENTS, List.length_take]
  · intro h
    have hfold : List.foldl addActivityEvent [] es = es.reverse.take 100 := by
      simpa using foldl_addActivityEvent es []
    refine ⟨hfold, ?_⟩
    rw [hfold]
    simp [List.length_take, h]

/-- Claim C6, witness: appending 150 concrete events to the empty log. -/
theorem activityLog_bounded_newest_first_witness :
    (addActivityEvent [] sampleEvent).head? = some sampleEvent ∧
    (addActivityEvent [] sampleEvent).length ≤ 100 ∧
    (List.foldl addActivityEvent [] (List.replicate 150 sampleEvent) =
        (List.replicate 150 sampleEvent).reverse.take 100 ∧
      (List.foldl addActivityEvent [] (List.replicate 150 sampleEvent)).length = 100) := by
  obtain ⟨h1, h2, h3⟩ :=
    activityLog_bounded_newest_first sampleEvent [] (List.replicate 150 sampleEvent)
  exact ⟨h1, h2, h3 (by simp)⟩

/-- Claim C7: `verifyDaemon` fails closed — a thrown fetch error is
caught and reported, a non-2xx status yields `verified=false` with the
non-empty error `"HTTP <status>"`, a body without `'['` or shorter than
50 units yields `verified=false` with the non-empty error
`"Invalid daemon.md format"`, and every unverified result carries an
error. -/
theorem verifyDaemon_fails_closed (outcome : FetchOutcome) :
    (∀ msg, outcome = .failure msg →
      verifyDaemon outcome = { verified := false, error := some msg }) ∧
    (∀ status content, outcome = .response status content → responseOk status = false →
      verifyDaemon outcome =
        { verified := false, error := some ("HTTP " ++ toString status) } ∧
      "HTTP " ++ toString status ≠ "") ∧
    (∀ status content, outcome = .response status content → responseOk status = true →
      (content.data.contains '[' = false ∨ jsLength content < 50) →
      verifyDaemon outcome = { verified := false, error := some "Invalid daemon.md format" }) ∧
    ((verifyDaemon outcome).verified = false → (verifyDaemon outcome).error.isSome = true) := by
  refine ⟨?_, ?_, ?_, ?_⟩
  · rintro msg rfl; rfl
  · rintro status content rfl hok
    refine ⟨by simp [verifyDaemon, hok], ?_⟩
    intro hcontra
    have hlen := congrArg String.length hcontra
    simp [String.length_append] at hlen
    exact absurd hlen.1 (by decide)
  · rintro status content rfl hok hbad
    rcases hbad with hb | hb
    · have hb2 : '[' ∉ content.data := by simpa using hb
      simp [verifyDaemon, hok, hb2]
    · simp [verifyDaemon, hok, hb]
  · cases outcome with
    | failure msg => intro _; rfl
    | response status content =>
        simp only [verifyDaemon]
        split
        · intro _; rfl
        · split
          · intro _; rfl
          · intro h; exact absurd h (by simp)

/-- Claim C7, witness: the three failure shapes at concrete outcomes. -/
theorem verifyDaemon_fails_closed_witness :
    verifyDaemon (.failure "fetch timed out") =
      { verified := false, error := some "fetch timed out" } ∧
    (verifyDaemon (.response 404 "irrelevant") =
        { verified := false, error := some ("HTTP " ++ toString 404) } ∧
      "HTTP " ++ toString 404 ≠ "") ∧
    verifyDaemon (.response 200 "no marker") =
      { verified := false, error := some "Invalid daemon.md format" } := by
  obtain h1 := (verifyDaemon_fails_closed (.failure "fetch timed out")).1 _ rfl
  obtain h2 := (verifyDaemon_fails_closed (.response 404 "irrelevant")).2.1 404 "irrelevant"
    rfl (by decide)
  obtain h3 := (verifyDaemon_fails_closed (.response 200 "no marker")).2.2.1 200 "no marker"
    rfl (by decide) (Or.inl (by decide))
  exact ⟨h1, h2, h3⟩

/-- Claim C8: the check minute is always in `[0, 60)` (for every string,
in particular also when the 32-bit hash is the minimum signed integer),
and is deterministic in the URL. -/
theorem checkMinute_range_deterministic (url : String) :
    0 ≤ getDaemonCheckMinute url ∧ getDaemonCheckMinute url < 60 ∧
    ∀ url2 : String, url = url2 → getDaemonCheckMinute url = getDaemonCheckMinute url2 := by
  refine ⟨Int.emod_nonneg _ (by decide), Int.emod_lt_of_pos _ (by decide),
    fun url2 h => by rw [h]⟩

/-- Claim C8, witness: range and determinism at a concrete URL. -/
theorem checkMinute_range_deterministic_witness :
    0 ≤ getDaemonCheckMinute "https://daemon.example.com/" ∧
    getDaemonCheckMinute "https://daemon.example.com/" < 60 ∧
    getDaemonCheckMinute "https://daemon.example.com/" =
      getDaemonCheckMinute "https://daemon.example.com/" := by
  obtain ⟨h1, h2, h3⟩ := checkMinute_range_deterministic "https://daemon.example.com/"
  exact ⟨h1, h2, h3 _ rfl⟩

/-- Claim C10: a `limit` of 0 is falsy, so it is replaced by the default
of 20 — the call behaves exactly like one with no limit, returns the
first up-to-20 filtered events (non-empty whenever any event matches),
and reports the pre-limit filtered count as `total`. -/
theorem activity_zero_limit_defaults (events : List ActivityEvent)
    (eventType : Option String) :
    registryActivity true events (some 0) eventType =
      registryActivity true events none eventType ∧
    (registryActivity true events (some 0) eventType).1 =
      (filterByType events eventType).take 20 ∧
    (registryActivity true events (some 0) eventType).2 =
      (filterByType events eventType).length ∧
    (filterByType events eventType ≠ [] →
      (registryActivity true events (some 0) eventType).1 ≠ []) := by
  refine ⟨rfl, rfl, rfl, ?_⟩
  intro h
  have h2 : (registryActivity true events (some 0) eventType).1 =
      (filterByType events eventType).take 20 := rfl
  rw [h2]
  cases hf : filterByType events eventType with
  | nil => exact absurd hf h
  | cons a l => simp

/-- Claim C10, witness: limit 0 on a one-event feed returns that event,
not zero events. -/
theorem activity_zero_limit_defaults_witness :
    registryActivity true [sampleEvent] (some 0) none =
      registryActivity true [sampleEvent] none none ∧
    (registryActivity true [sampleEvent] (some 0) none).1 =
      (filterByType [sampleEvent] none).take 20 ∧
    (registryActivity true [sampleEvent] (some 0) none).2 =
      (filterByType [sampleEvent] none).length ∧
    (registryActivity true [sampleEvent] (some 0) none).1 ≠ [] := by
  obtain ⟨h1, h2, h3, h4⟩ := activity_zero_limit_defaults [sampleEvent] none
  exact ⟨h1, h2, h3, h4 (by decide)⟩

theorem recordHits_five (t t2 t3 t4 t5 : Int)
    (h2 : t2 - t ≤ RATE_LIMIT_WINDOW_MS) (h3 : t3 - t ≤ RATE_LIMIT_WINDOW_MS)
    (h4 : t4 - t ≤ RATE_LIMIT_WINDOW_MS) (h5 : t5 - t ≤ RATE_LIMIT_WINDOW_MS) :
    recordHits none [t, t2, t3, t4, t5] = some { count := 5, windowStart := t } := by
  have s1 : recordRateLimitHit none t = { count := 1, windowStart := t } := rfl
  have s2 : recordRateLimitHit (some { count := 1, windowStart := t }) t2 =
      { count := 2, windowStart := t } := by
    simp only [recordRateLimitHit]
    rw [if_neg (not_lt.mpr h2)]
  have s3 : recordRateLimitHit (some { count := 2, windowStart := t }) t3 =
      { count := 3, windowStart := t } := by
    simp only [recordRateLimitHit]
    rw [if_neg (not_lt.mpr h3)]
  have s4 : recordRateLimitHit (some { count := 3, windowStart := t }) t4 =
      { count := 4, windowStart := t } := by
    simp only [recordRateLimitHit]
    rw [if_neg (not_lt.mpr h4)]
  have s5 : recordRateLimitHit (some { count := 4, windowStart := t }) t5 =
      { count := 5, windowStart := t } := by
    simp only [recordRateLimitHit]
    rw [if_neg (not_lt.mpr h5)]
  simp [recordHits, s1, s2, s3, s4, s5]

/-- Claim C2, counterexample: with all five record calls at time 0 and a
check at `now = 3600000` (so `now − t` equals the window exactly, still
within the claim's `now − t ≤ 1 hour`), the check is denied but
`resetIn = 0`, refuting the claimed `resetIn > 0`. -/
theorem rateLimit_boundary_counterexample :
    (checkRateLimit (recordHits none [0, 0, 0, 0, 0]) 3600000).allowed = false ∧
    (checkRateLimit (recordHits none [0, 0, 0, 0, 0]) 3600000).remaining = 0 ∧
    (checkRateLimit (recordHits none [0, 0, 0, 0, 0]) 3600000).resetIn = 0 ∧
    ¬ 0 < (checkRateLimit (recordHits none [0, 0, 0, 0, 0]) 3600000).resetIn := by
  refine ⟨rfl, rfl, rfl, by decide⟩

/-- Claim C2, amended: after exactly 5 record calls whose window started
at `t` (every call within the window), a check at `now` with
`t ≤ now` and `now − t ≤ 1 hour` returns `allowed=false`, `remaining=0`
and `resetIn = W − (now − t)`, which lies in `[0, W]` and is positive
whenever `now − t < W`; a check at any time strictly past the window
returns `allowed=true` with `remaining = 4` (a fresh window), and since
`checkRateLimit` is a pure function of the stored record and the clock it
writes nothing to the store. -/
theorem rateLimit_denies_after_five (t t2 t3 t4 t5 now nowAfter : Int)
    (h2 : t2 - t ≤ RATE_LIMIT_WINDOW_MS) (h3 : t3 - t ≤ RATE_LIMIT_WINDOW_MS)
    (h4 : t4 - t ≤ RATE_LIMIT_WINDOW_MS) (h5 : t5 - t ≤ RATE_LIMIT_WINDOW_MS)
    (hle : t ≤ now) (hnow : now - t ≤ RATE_LIMIT_WINDOW_MS)
    (hafter : nowAfter - t > RATE_LIMIT_WINDOW_MS) :
    recordHits none [t, t2, t3, t4, t5] = some { count := 5, windowStart := t } ∧
    checkRateLimit (recordHits none [t, t2, t3, t4, t5]) now =
      { allowed := false, remaining := 0,
        resetIn := RATE_LIMIT_WINDOW_MS - (now - t) } ∧
    0 ≤ RATE_LIMIT_WINDOW_MS - (now - t) ∧
    RATE_LIMIT_WINDOW_MS - (now - t) ≤ RATE_LIMIT_WINDOW_MS ∧
    (now - t < RATE_LIMIT_WINDOW_MS → 0 < RATE_LIMIT_WINDOW_MS - (now - t)) ∧
    checkRateLimit (recordHits none [t, t2, t3, t4, t5]) nowAfter =
      { allowed := true, remaining := 4, resetIn := RATE_LIMIT_WINDOW_MS } := by
  have hrec := recordHits_five t t2 t3 t4 t5 h2 h3 h4 h5
  refine ⟨hrec, ?_, by omega, by omega, by omega, ?_⟩
  · rw [hrec]
    simp only [checkRateLimit]
    rw [if_neg (not_lt.mpr hnow), if_pos (by decide)]
  · rw [hrec]
    simp only [checkRateLimit]
    rw [if_pos hafter]
    decide

/-- Claim C2, witness: five records at time 0, a denied check mid-window
and an allowed check after the window. -/
theorem rateLimit_denies_after_five_witness :
    checkRateLimit (recordHits none [0, 0, 0, 0, 0]) 1800000 =
      { allowed := false, remaining := 0,
        resetIn := RATE_LIMIT_WINDOW_MS - (1800000 - 0) } ∧
    (0 : Int) - 0 < RATE_LIMIT_WINDOW_MS ∧
    checkRateLimit (recordHits none [0, 0, 0, 0, 0]) 3600001 =
      { allowed := true, remaining := 4, resetIn := RATE_LIMIT_WINDOW_MS } := by
  obtain ⟨-, hden, -, -, -, hfresh⟩ :=
    rateLimit_denies_after_five 0 0 0 0 0 1800000 3600001 (by decide) (by decide)
      (by decide) (by decide) (by decide) (by decide) (by decide)
  exact ⟨hden, by decide, hfresh⟩

/-- The health invariant relating the `healthy` flag to the `status`
tier. -/
def healthStatusInvariant (d : DaemonEntry) : Prop :=
  (d.healthy = some true ↔ (d.status = some "mcp" ∨ d.status = some "web")) ∧
  (d.healthy = some false ↔ d.status = some "offline")

/-- On the success path, the returned entry is the freshly constructed
one. -/
theorem registryAnnounce_success_entry (seed : List DaemonEntry) (st : KVState)
    (input : AnnounceInput) (hasClientIp : Bool) (parsedUrl : Option UrlParts)
    (verification : VerifyResult) (now : String) (nowMs : Int)
    (hsucc : (registryAnnounce seed st input hasClientIp parsedUrl verification
        now nowMs).result.success = true) :
    (registryAnnounce seed st input hasClientIp parsedUrl verification now nowMs).result.entry =
      mkAnnouncedEntry input (resolveAnnounceId input parsedUrl) verification now := by
  by_cases hc : (hasClientIp && !(checkRateLimit st.rateLimit nowMs).allowed) = true
  · simp only [registryAnnounce, hc, if_true, Bool.false_eq_true] at hsucc
  · have hc2 : (hasClientIp && !(checkRateLimit st.rateLimit nowMs).allowed) = false := by
      revert hc
      cases hasClientIp && !(checkRateLimit st.rateLimit nowMs).allowed <;> simp
    cases hurl : (seed ++ st.announced).find? (fun e => e.url == input.url) with
    | some ex =>
        simp only [registryAnnounce, hc2, Bool.false_eq_true, if_false, hurl] at hsucc
    | none =>
      cases hid : (seed ++ st.announced).find?
          (fun e => e.id == resolveAnnounceId input parsedUrl) with
      | some ex =>
          simp only [registryAnnounce, hc2, Bool.false_eq_true, if_false, hurl, hid] at hsucc
      | none =>
        cases parsedUrl with
        | none =>
            simp only [registryAnnounce, hc2, Bool.false_eq_true, if_false, hurl, hid] at hsucc
        | some p =>
            simp only [registryAnnounce, hc2, Bool.false_eq_true, if_false, hurl, hid]

/-- A second announce attempt for an already-registered URL: stored
entry, fresh rate-limit record exhausting the window, and a differing
submitter. -/
def dupStored : DaemonEntry :=
  { id := "com.example.u.alice", url := "https://u.example.com/", owner := "alice" }

def dupState : KVState :=
  { announced := [dupStored], rateLimit := some { count := 5, windowStart := 0 },
    activity := [] }

def dupStateFree : KVState :=
  { announced := [dupStored], rateLimit := none, activity := [] }

def dupInput : AnnounceInput := { url := "https://u.example.com/", owner := "bob" }

/-- Claim C4, counterexample: when the duplicate announcer is also
rate-limited (5 hits in the current window), the call fails at the
rate-limit state and echoes the submitted entry, not the stored entry
for that URL. -/
theorem announce_duplicate_counterexample :
    (registryAnnounce [] dupState dupInput true (some ⟨"u.example.com", "/"⟩)
        { verified := false } "2026-01-01T00:00:00Z" 1000).result.success = false ∧
    (registryAnnounce [] dupState dupInput true (some ⟨"u.example.com", "/"⟩)
        { verified := false } "2026-01-01T00:00:00Z" 1000).result.entry ≠ dupStored := by
  constructor
  · rfl
  · decide

/-- Claim C4, amended: provided the rate-limit check allows the request
(or no client key is supplied), announcing a URL that already has an
entry returns `success=false` with that stored entry and the duplicate
message, and leaves the whole KV state — overlay, rate-limit record and
activity log — unchanged. -/
theorem announce_duplicate_idempotent (seed : List DaemonEntry) (st : KVState)
    (input : AnnounceInput) (hasClientIp : Bool) (parsedUrl : Option UrlParts)
    (verification : VerifyResult) (now : String) (nowMs : Int) (e0 : DaemonEntry)
    (hrl : hasClientIp = false ∨ (checkRateLimit st.rateLimit nowMs).allowed = true)
    (hdup : (seed ++ st.announced).find? (fun e => e.url == input.url) = some e0) :
    (registryAnnounce seed st input hasClientIp parsedUrl verification now nowMs).result =
      { success := false, entry := e0,
        message := "Daemon already registered (URL exists)" } ∧
    (registryAnnounce seed st input hasClientIp parsedUrl verification now nowMs).state =
      st := by
  have hc2 : (hasClientIp && !(checkRateLimit st.rateLimit nowMs).allowed) = false := by
    rcases hrl with h | h <;> simp [h]
  simp only [registryAnnounce, hc2, Bool.false_eq_true, if_false, hdup]
  refine ⟨?_, ?_⟩ <;> trivial

/-- Claim C4, witness: a duplicate announce against a one-entry overlay
with no rate-limit record. -/
theorem announce_duplicate_idempotent_witness :
    (registryAnnounce [] dupStateFree dupInput true (some ⟨"u.example.com", "/"⟩)
        { verified := false } "T" 0).result =
      { success := false, entry := dupStored,
        message := "Daemon already registered (URL exists)" } ∧
    (registryAnnounce [] dupStateFree dupInput true (some ⟨"u.example.com", "/"⟩)
        { verified := false } "T" 0).state = dupStateFree :=
  announce_duplicate_idempotent [] dupStateFree dupInput true
    (some ⟨"u.example.com", "/"⟩) { verified := false } "T" 0 dupStored
    (Or.inr rfl) (by decide)

/-- Claim C5: an announce that passes the rate-limit, duplicate and
URL-validity checks constructs an entry with `status="mcp"` iff the
Verifier succeeded (`"web"` otherwise), `healthy=true` unconditionally,
and all three timestamps set to now; it appends the entry to the
overlay, records the rate-limit hit, and appends one `daemon_announced`
activity event. -/
theorem announce_persist_path (seed : List DaemonEntry) (st : KVState)
    (input : AnnounceInput) (parsedUrl : Option UrlParts) (verification : VerifyResult)
    (now : String) (nowMs : Int) (p : UrlParts)
    (hallow : (checkRateLimit st.rateLimit nowMs).allowed = true)
    (hnoUrl : (seed ++ st.announced).find? (fun e => e.url == input.url) = none)
    (hnoId : (seed ++ st.announced).find?
        (fun e => e.id == resolveAnnounceId input parsedUrl) = none)
    (hp : parsedUrl = some p) :
    (registryAnnounce seed st input true parsedUrl verification now nowMs).result.success =
      true ∧
    (registryAnnounce seed st input true parsedUrl verification now nowMs).result.entry =
      mkAnnouncedEntry input (resolveAnnounceId input parsedUrl) verification now ∧
    (registryAnnounce seed st input true parsedUrl verification now nowMs).result.entry.status =
      some (if verification.verified then "mcp" else "web") ∧
    (registryAnnounce seed st input true parsedUrl verification now nowMs).result.entry.healthy =
      some true ∧
    (registryAnnounce seed st input true parsedUrl verification now
        nowMs).result.entry.announced_at = some now ∧
    (registryAnnounce seed st input true parsedUrl verification now
        nowMs).result.entry.verified_at = some now ∧
    (registryAnnounce seed st input true parsedUrl verification now
        nowMs).result.entry.last_checked = some now ∧
    (registryAnnounce seed st input true parsedUrl verification now nowMs).state.announced =
      st.announced ++
        [(registryAnnounce seed st input true parsedUrl verification now nowMs).result.entry] ∧
    (registryAnnounce seed st input true parsedUrl verification now nowMs).state.rateLimit =
      some (recordRateLimitHit st.rateLimit nowMs) ∧
    (registryAnnounce seed st input true parsedUrl verification now nowMs).state.activity =
      addActivityEvent st.activity (mkAnnouncedEvent input verification now) ∧
    (registryAnnounce seed st input true parsedUrl verification now
        nowMs).state.activity.head? = some (mkAnnouncedEvent input verification now) := by
  subst hp
  have hc2 : (true && !(checkRateLimit st.rateLimit nowMs).allowed) = false := by
    simp [hallow]
  simp only [registryAnnounce, hc2, Bool.false_eq_true, if_false, hnoUrl, hnoId]
  refine ⟨?_, ?_, ?_, ?_, ?_, ?_, ?_, ?_, ?_, ?_, ?_⟩ <;> trivial

def emptyState : KVState := { announced := [], rateLimit := none, activity := [] }

def annInput : AnnounceInput := { url := "https://x.example.com/", owner := "Ada" }

/-- Claim C5, witness: a fresh announce into an empty overlay with a
successful verification. -/
theorem announce_persist_path_witness :
    (registryAnnounce [] emptyState annInput true (some ⟨"x.example.com", "/"⟩)
        { verified := true } "T" 0).result.success = true ∧
    (registryAnnounce [] emptyState annInput true (some ⟨"x.example.com", "/"⟩)
        { verified := true } "T" 0).result.entry =
      mkAnnouncedEntry annInput
        (resolveAnnounceId annInput (some ⟨"x.example.com", "/"⟩))
        { verified := true } "T" ∧
    (registryAnnounce [] emptyState annInput true (some ⟨"x.example.com", "/"⟩)
        { verified := true } "T" 0).result.entry.status =
      some (if ({ verified := true } : VerifyResult).verified then "mcp" else "web") ∧
    (registryAnnounce [] emptyState annInput true (some ⟨"x.example.com", "/"⟩)
        { verified := true } "T" 0).result.entry.healthy = some true ∧
    (registryAnnounce [] emptyState annInput true (some ⟨"x.example.com", "/"⟩)
        { verified := true } "T" 0).result.entry.announced_at = some "T" ∧
    (registryAnnounce [] emptyState annInput true (some ⟨"x.example.com", "/"⟩)
        { verified := true } "T" 0).result.entry.verified_at = some "T" ∧
    (registryAnnounce [] emptyState annInput true (some ⟨"x.example.com", "/"⟩)
        { verified := true } "T" 0).result.entry.last_checked = some "T" ∧
    (registryAnnounce [] emptyState annInput true (some ⟨"x.example.com", "/"⟩)
        { verified := true } "T" 0).state.announced =
      emptyState.announced ++
        [(registryAnnounce [] emptyState annInput true (some ⟨"x.example.com", "/"⟩)
            { verified := true } "T" 0).result.entry] ∧
    (registryAnnounce [] emptyState annInput true (some ⟨"x.example.com", "/"⟩)
        { verified := true } "T" 0).state.rateLimit =
      some (recordRateLimitHit emptyState.rateLimit 0) ∧
    (registryAnnounce [] emptyState annInput true (some ⟨"x.example.com", "/"⟩)
        { verified := true } "T" 0).state.activity =
      addActivityEvent emptyState.activity
        (mkAnnouncedEvent annInput { verified := true } "T") ∧
    (registryAnnounce [] emptyState annInput true (some ⟨"x.example.com", "/"⟩)
        { verified := true } "T" 0).state.activity.head? =
      some (mkAnnouncedEvent annInput { verified := true } "T") :=
  announce_persist_path [] emptyState annInput (some ⟨"x.example.com", "/"⟩)
    { verified := true } "T" 0 ⟨"x.example.com", "/"⟩ (by decide) (by decide)
    (by decide) rfl

/-- Claim C9: every entry the core writes satisfies
`healthy = (status ≠ "offline")` — an entry constructed by a successful
announce, and any entry after merging a `healthCheckDaemon` update, has
`healthy=true` exactly when its status is `"mcp"` or `"web"` and
`healthy=false` exactly when its status is `"offline"`. -/
theorem written_entries_health_invariant (seed : List DaemonEntry) (st : KVState)
    (input : AnnounceInput) (hasClientIp : Bool) (parsedUrl : Option UrlParts)
    (verification : VerifyResult) (now : String) (nowMs : Int)
    (e : DaemonEntry) (web mcp ver : Bool) (now2 : String)
    (hsucc : (registryAnnounce seed st input hasClientIp parsedUrl verification
        now nowMs).result.success = true) :
    healthStatusInvariant
      (registryAnnounce seed st input hasClientIp parsedUrl verification
        now nowMs).result.entry ∧
    healthStatusInvariant (applyHealthUpdate e (healthCheckDaemon web mcp ver now2)) := by
  constructor
  · rw [registryAnnounce_success_entry seed st input hasClientIp parsedUrl verification
      now nowMs hsucc]
    by_cases hv : verification.verified <;>
      simp [mkAnnouncedEntry, healthStatusInvariant, hv]
  · cases web <;> cases mcp <;> cases ver <;>
      simp [healthCheckDaemon, applyHealthUpdate, healthStatusInvariant]

/-- Claim C9, witness: the invariant at a concrete successful announce
and a concrete offline health merge. -/
theorem written_entries_health_invariant_witness :
    healthStatusInvariant
      (registryAnnounce [] emptyState annInput true (some ⟨"x.example.com", "/"⟩)
        { verified := false } "T" 0).result.entry ∧
    healthStatusInvariant
      (applyHealthUpdate dupStored (healthCheckDaemon false false false "T")) :=
  written_entries_health_invariant [] emptyState annInput true
    (some ⟨"x.example.com", "/"⟩) { verified := false } "T" 0 dupStored
    false false false "T" (by decide)

end DaemonRegistry
